import Mathlib

/-
Shallow embedding of tools/uvc_control_gui.py (device-control core).
Python exceptions are modelled with Except; machine bytes are Nat with an
explicit % 256 where the source masks with & 0xFF; subprocess outcomes are
an explicit datatype. Timing (time.sleep) is not modelled.
-/

-- ---------- USB constants (source lines 41-52) ----------

def ESP32_VID : Nat := 0x303a

def ESP32_PID : Nat := 0x8000

def UVC_GET_CUR : Nat := 0x81

def UVC_SET_CUR : Nat := 0x01

def XU_UNIT_ID : Nat := 0x04

def XU_SELECTOR : Nat := 0x01

def XU_WVALUE : Nat := XU_SELECTOR <<< 8

def XU_WINDEX : Nat := (XU_UNIT_ID <<< 8) ||| 0x00

-- ---------- exceptions ----------

inductive XuExn where
  | detachFailed
  | releaseFailed
  | attachFailed
  | transferFailed
  deriving DecidableEq

/-- Outcomes of the primitive pyusb calls the arbiter makes around one
operation: entryBound is dev.is_kernel_driver_active(0) at scope entry, and
the three Ok flags say whether detach_kernel_driver, release_interface and
attach_kernel_driver succeed or raise when called. -/
structure UsbOps where
  entryBound : Bool
  detachOk : Bool
  releaseOk : Bool
  attachOk : Bool
  deriving DecidableEq

/-- The finally-block of _xu_access when detachment occurred (source lines
66-77): release the interface, then reattach the kernel driver; each step is
wrapped in try/except Exception: pass, so a cleanup failure is swallowed.
release_interface does not change the kernel-driver binding; a successful
attach_kernel_driver makes it bound again. Returns the binding state after
cleanup. -/
def xu_cleanup (ops : UsbOps) (bound : Bool) : Bool :=
  let rel : Except XuExn Bool :=
    if ops.releaseOk then Except.ok bound else Except.error XuExn.releaseFailed
  let bound1 := match rel with
    | Except.ok b => b
    | Except.error _ => bound
  let att : Except XuExn Bool :=
    if ops.attachOk then Except.ok true else Except.error XuExn.attachFailed
  match att with
  | Except.ok b => b
  | Except.error _ => bound1

/-- Result of one _xu_access scope: the outcome escaping the scope, the
transfer-layer state after it, and the kernel-driver binding state of
interface 0 at scope exit. -/
structure XuRun (σ α : Type) where
  outcome : Except XuExn α
  state : σ
  bound : Bool

/-- The _xu_access context manager (source lines 57-77): if the kernel driver
is bound, detach it (recording detached = True) and run the body; on exit,
when detachment occurred, run the best-effort cleanup. A detach failure
escapes before the body runs; the body never runs in that case, so the
transfer-layer state is unchanged there. -/
def xu_access {σ α : Type} (ops : UsbOps) (body : σ → Except XuExn α × σ)
    (s : σ) : XuRun σ α :=
  if ops.entryBound then
    if ops.detachOk then
      let r := body s
      { outcome := r.1, state := r.2, bound := xu_cleanup ops false }
    else
      { outcome := Except.error XuExn.detachFailed, state := s, bound := true }
  else
    let r := body s
    { outcome := r.1, state := r.2, bound := false }

-- ---------- control transfers ----------

/-- The data argument of pyusb ctrl_transfer: a length to read (IN) or a
payload to write (OUT). -/
inductive CtrlData where
  | inLen (wLength : Nat)
  | outData (data : List Nat)
  deriving DecidableEq

structure CtrlReq where
  bmRequestType : Nat
  bRequest : Nat
  wValue : Nat
  wIndex : Nat
  data : CtrlData
  timeout : Nat
  deriving DecidableEq

/-- The ctrl_transfer request issued by xu_get_cur (source lines 91-92). -/
def xu_get_cur_req : CtrlReq :=
  { bmRequestType := 0xA1, bRequest := UVC_GET_CUR, wValue := XU_WVALUE,
    wIndex := XU_WINDEX, data := CtrlData.inLen 1, timeout := 2000 }

/-- The ctrl_transfer request issued by xu_set_cur (source lines 102-103);
payload is bytes of value masked with 0xFF, i.e. one byte value % 256. -/
def xu_set_cur_req (value : Nat) : CtrlReq :=
  { bmRequestType := 0x21, bRequest := UVC_SET_CUR, wValue := XU_WVALUE,
    wIndex := XU_WINDEX, data := CtrlData.outData [value % 256],
    timeout := 2000 }

/-- A pyusb device handle: its arbiter-relevant call outcomes and its
response to a control transfer (list of bytes received, or an exception). -/
structure Dev where
  ops : UsbOps
  respond : CtrlReq → Except XuExn (List Nat)

/-- What escapes the _xu_access scope inside xu_get_cur. -/
def xuGetOutcome (dev : Dev) : Except XuExn (List Nat) :=
  (xu_access dev.ops (fun (u : Unit) => (dev.respond xu_get_cur_req, u)) ()).outcome

/-- What escapes the _xu_access scope inside xu_set_cur. -/
def xuSetOutcome (dev : Dev) (value : Nat) : Except XuExn (List Nat) :=
  (xu_access dev.ops (fun (u : Unit) => (dev.respond (xu_set_cur_req value), u)) ()).outcome

/-- xu_get_cur (source lines 87-95): the whole access scope sits under
try/except Exception, so any escaping exception yields None; on a successful
transfer the source returns ret[0], and indexing an empty result raises
inside the same try, again yielding None (List.head? covers both). -/
def xu_get_cur (dev : Dev) : Option Nat :=
  match xuGetOutcome dev with
  | Except.ok bytes => bytes.head?
  | Except.error _ => none

/-- xu_set_cur (source lines 98-106): True unless an exception escapes the
access scope or the transfer. -/
def xu_set_cur (dev : Dev) (value : Nat) : Bool :=
  match xuSetOutcome dev value with
  | Except.ok _ => true
  | Except.error _ => false

/-- xu_get_cur over a stateful transfer layer (same source lines 87-95), for
mock transports that remember the last written byte. -/
def xu_get_cur_st {σ : Type} (ops : UsbOps)
    (respond : σ → CtrlReq → Except XuExn (List Nat) × σ) (s : σ) :
    Option Nat × σ :=
  let r := xu_access ops (fun s0 => respond s0 xu_get_cur_req) s
  (match r.outcome with
   | Except.ok bytes => bytes.head?
   | Except.error _ => none, r.state)

/-- xu_set_cur over a stateful transfer layer (same source lines 98-106). -/
def xu_set_cur_st {σ : Type} (ops : UsbOps)
    (respond : σ → CtrlReq → Except XuExn (List Nat) × σ) (s : σ)
    (value : Nat) : Bool × σ :=
  let r := xu_access ops (fun s0 => respond s0 (xu_set_cur_req value)) s
  (match r.outcome with
   | Except.ok _ => true
   | Except.error _ => false, r.state)

/-- A mock transfer layer whose state is the last written byte: an OUT
transfer stores its first payload byte, an IN transfer answers with the
stored byte. -/
def mockRespond (s : Nat) (req : CtrlReq) : Except XuExn (List Nat) × Nat :=
  match req.data with
  | CtrlData.inLen _ => (Except.ok [s], s)
  | CtrlData.outData bs => (Except.ok [], bs.headD s)

-- ---------- subprocess outcomes ----------

/-- Outcome of one subprocess.run call: the process finished with an exit
status and captured stdout, or one of the two exceptions the source
catches (subprocess.TimeoutExpired, FileNotFoundError). -/
inductive ProcResult where
  | finished (returncode : Int) (stdout : String)
  | timeoutExpired
  | fileNotFound

-- ---------- Python regular-expression fragments used by the source ----------

/-- The characters matched by a Python regex backslash-s on the ASCII range
(space, tab, newline, carriage return, vertical tab, form feed). -/
def pyWhitespace (c : Char) : Bool :=
  c == ' ' || c == '\t' || c == '\n' || c == '\r' || c == '\x0b' || c == '\x0c'

/-- Value of a run of decimal digits, as Python int() reads it. -/
def digitsToNat (ds : List Char) : Nat :=
  ds.foldl (fun acc c => acc * 10 + (c.toNat - '0'.toNat)) 0

/-- Continue the match of the get-ctrl pattern just after a colon: consume
backslash-s star, then an optional minus sign, then one or more digits
(greedy); the minus branch only succeeds when digits follow it, which is
exactly what regex backtracking over the optional minus gives. -/
def matchColonNum (cs : List Char) : Option Int :=
  let cs1 := cs.dropWhile pyWhitespace
  match cs1 with
  | '-' :: rest =>
    let ds := rest.takeWhile Char.isDigit
    if ds.isEmpty then none else some (-(digitsToNat ds : Int))
  | _ =>
    let ds := cs1.takeWhile Char.isDigit
    if ds.isEmpty then none else some ((digitsToNat ds : Int))

/-- re.search of the source pattern colon backslash-s star (-?digits+) over a
string: try every start position left to right, matching at a position only
when it holds a colon. Returns the captured signed integer. -/
def reSearchColonNum : List Char → Option Int
  | [] => none
  | c :: rest =>
    if c = ':' then
      match matchColonNum rest with
      | some n => some n
      | none => reSearchColonNum rest
    else reSearchColonNum rest

/-- v4l2_get_ctrl (source lines 111-124), with the subprocess behaviour
supplied as an environment keyed by device path and control name: on exit
status 0 the signed integer is extracted from stdout by the regex above,
anything else (non-zero status, no match, timeout, missing executable)
yields none; both caught exception types fall through to return None. -/
def v4l2_get_ctrl (env : String → String → ProcResult)
    (device ctrl : String) : Option Int :=
  match env device ctrl with
  | ProcResult.finished rc out => if rc = 0 then reSearchColonNum out.data else none
  | ProcResult.timeoutExpired => none
  | ProcResult.fileNotFound => none

-- ---------- device discovery (source lines 138-153) ----------

/-- Match a literal character list at the start of the input, returning the
remainder on success. -/
def matchLit : List Char → List Char → Option (List Char)
  | [], cs => some cs
  | _ :: _, [] => none
  | p :: ps, c :: cs => if c = p then matchLit ps cs else none

/-- Does the pattern occur at the start of the input? -/
def litAt (pat cs : List Char) : Bool :=
  (matchLit pat cs).isSome

/-- Python substring containment (the source's quoted-ESP in result.stdout). -/
def hasSubstr (pat : List Char) : List Char → Bool
  | [] => pat.isEmpty
  | c :: rest => litAt pat (c :: rest) || hasSubstr pat rest

/-- Python str.strip() restricted to the ASCII whitespace range. -/
def stripChars (cs : List Char) : List Char :=
  ((cs.dropWhile pyWhitespace).reverse.dropWhile pyWhitespace).reverse

/-- Match the card pattern (Card, backslash-s plus, type, backslash-s star,
colon, backslash-s star, captured dot-plus) at the start of the input,
returning the raw capture. The final greedy backslash-s star crosses
newlines; when nothing but whitespace remains, regex backtracking hands the
last non-newline whitespace character back to the dot-plus group, so the
capture is that single character (the source then strips it to empty);
when something non-whitespace remains, the capture runs to the end of that
line. -/
def matchCardAt (cs : List Char) : Option (List Char) :=
  match matchLit ['C', 'a', 'r', 'd'] cs with
  | none => none
  | some cs1 =>
    if (cs1.takeWhile pyWhitespace).isEmpty then none
    else
      match matchLit ['t', 'y', 'p', 'e'] (cs1.dropWhile pyWhitespace) with
      | none => none
      | some cs2 =>
        match matchLit [':'] (cs2.dropWhile pyWhitespace) with
        | none => none
        | some cs3 =>
          let ws := cs3.takeWhile pyWhitespace
          let rest := cs3.dropWhile pyWhitespace
          match rest with
          | [] =>
            match ws.reverse.dropWhile (fun c => c = '\n') with
            | [] => none
            | c :: _ => some [c]
          | _ :: _ => some (rest.takeWhile (fun c => ¬ (c = '\n')))

/-- re.search of the card pattern: try every start position left to right. -/
def reSearchCard : List Char → Option (List Char)
  | [] => none
  | c :: rest =>
    match matchCardAt (c :: rest) with
    | some g => some g
    | none => reSearchCard rest

/-- The display label for one discovered device (source line 149): the
stripped capture of the card pattern, or the raw device path when the
pattern does not match. -/
def cardOf (dev : String) (out : String) : String :=
  match reSearchCard out.data with
  | some g => String.mk (stripChars g)
  | none => dev

/-- The product marker the source looks for in the info output. -/
def espMarker : List Char := ['E', 'S', 'P']

/-- Does one candidate device pass the discovery filter (source line 147)?
Exit status 0 and the marker in stdout; a timeout or missing executable
fails the filter. -/
def devPass (r : ProcResult) : Bool :=
  match r with
  | ProcResult.finished rc out => rc == 0 && hasSubstr espMarker out.data
  | ProcResult.timeoutExpired => false
  | ProcResult.fileNotFound => false

/-- The label a passing device gets (source lines 148-149). -/
def devLabel (dev : String) (r : ProcResult) : String :=
  match r with
  | ProcResult.finished _ out => cardOf dev out
  | ProcResult.timeoutExpired => dev
  | ProcResult.fileNotFound => dev

/-- find_esp32p4_devices (source lines 138-153), with the sorted glob result
supplied as the path list and the per-device info query as an environment:
each device is queried; a finished query with exit status 0 whose stdout
holds the marker appends the pair of path and label; a timeout or missing
executable for one device just skips that device (continue). -/
def find_esp32p4_devices (env : String → ProcResult) :
    List String → List (String × String)
  | [] => []
  | dev :: rest =>
    match env dev with
    | ProcResult.finished rc out =>
      if rc == 0 && hasSubstr espMarker out.data then
        (dev, cardOf dev out) :: find_esp32p4_devices env rest
      else
        find_esp32p4_devices env rest
    | ProcResult.timeoutExpired => find_esp32p4_devices env rest
    | ProcResult.fileNotFound => find_esp32p4_devices env rest

-- ---------- static tables (source lines 158-175) ----------

def ISP_PROFILES : List (Nat × String) :=
  [(0, "Tungsten (2873K)"),
   (1, "Indoor-Warm (3725K)"),
   (2, "Fluorescent (5095K)"),
   (3, "Daylight (6015K)"),
   (4, "Cloudy (6865K)"),
   (5, "Shade (7600K)")]

structure PUControl where
  name : String
  label : String
  cmin : Int
  cmax : Int
  cdef : Int
  deriving DecidableEq

def PU_CONTROLS : List PUControl :=
  [{ name := "brightness", label := "Brightness", cmin := -127, cmax := 127, cdef := 0 },
   { name := "contrast", label := "Contrast", cmin := 0, cmax := 256, cdef := 128 },
   { name := "hue", label := "Hue", cmin := 0, cmax := 255, cdef := 0 },
   { name := "saturation", label := "Saturation", cmin := 0, cmax := 256, cdef := 128 }]

-- ---------- control panel state (class UVCControlPanel) ----------

/-- The channel writes a handler performs, in order: a v4l2-ctl set-ctrl
invocation, or an xu_set_cur invocation with the given value. -/
inductive Effect where
  | v4l2Set (device : String) (ctrl : String) (value : Int)
  | xuSet (value : Nat)
  deriving DecidableEq

/-- The panel state the claims depend on: whether pyusb imported, the raw
USB handle from xu_find_device, the selected v4l2 device path (the result
of _get_device_path), the availability pair, the profile radio variable,
the slider variables, and the two message labels. -/
structure Panel where
  has_pyusb : Bool
  usb_dev : Option Dev
  devicePath : Option String
  xu_available : Bool
  profile_var : Nat
  sliders : String → Int
  xu_status_msg : String
  status : String

-- the three diagnostic messages and the connected message (source 309-319)

def msgReadFailed : String := "XU read failed (permission? try sudo)"

def msgNoPyusb : String := "pyusb not installed (pip install pyusb)"

def msgNotFound : String := "ESP32-P4 USB device not found"

def msgConnected (cur : Nat) : String :=
  "XU connected via pyusb (current: " ++ toString cur ++ ")"

/-- _xu_unavailable (source lines 321-325): clear the availability flag and
show the diagnostic (disabling the radio buttons is presentation only). -/
def xu_unavailable (p : Panel) (msg : String) : Panel :=
  { p with xu_available := false, xu_status_msg := msg }

/-- The XU probe of _on_device_change (source lines 303-319): with a raw
handle, attempt xu_get_cur; a value makes the channel available and becomes
the current preset; otherwise, or without a handle, mark unavailable with
the diagnostic the source picks for that cause. -/
def xu_probe_update (p : Panel) : Panel :=
  match p.usb_dev with
  | some d =>
    match xu_get_cur d with
    | some cur =>
      { p with xu_available := true, profile_var := cur,
               xu_status_msg := msgConnected cur }
    | none => xu_unavailable p msgReadFailed
  | none =>
    if p.has_pyusb = false then xu_unavailable p msgNoPyusb
    else xu_unavailable p msgNotFound

/-- _on_device_change (source lines 288-319): nothing happens without a
selected device path; otherwise the PU sliders are refreshed from
v4l2_get_ctrl where a value comes back, and then the XU probe runs. -/
def on_device_change (env : String → String → ProcResult) (p : Panel) : Panel :=
  match p.devicePath with
  | none => p
  | some dev =>
    let p1 := { p with
      status := "Connected to " ++ dev,
      sliders := fun c =>
        if PU_CONTROLS.any (fun pc => pc.name == c) then
          match v4l2_get_ctrl env dev c with
          | some v => v
          | none => p.sliders c
        else p.sliders c }
    xu_probe_update p1

/-- _on_profile_change (source lines 336-349): refuse when the availability
flag is down or no raw handle is held; otherwise write the selected profile
index over the vendor channel and report the outcome. The source indexes
ISP_PROFILES with the radio value when reporting success; modelled totally
with getD, which the claims never evaluate out of range. -/
def on_profile_change (p : Panel) : Panel × List Effect :=
  match p.usb_dev, p.xu_available with
  | some d, true =>
    let idx := p.profile_var
    let ok := xu_set_cur d idx
    let msg := if ok then "ISP profile: " ++ (ISP_PROFILES.getD idx (0, "")).2
               else "Failed to set ISP profile " ++ toString idx
    ({ p with status := msg }, [Effect.xuSet idx])
  | _, _ =>
    ({ p with status := "Cannot set profile: XU not available" }, [])

/-- _reset_all (source lines 351-366): nothing happens without a selected
device path; otherwise every PU slider is set to its default and written via
v4l2-ctl, the profile radio is set to 3, the vendor write of 3 happens only
when the availability flag is up and a raw handle is held, and the status
line is set unconditionally. -/
def reset_all (p : Panel) : Panel × List Effect :=
  match p.devicePath with
  | none => (p, [])
  | some dev =>
    let sliders2 := fun c =>
      match PU_CONTROLS.find? (fun pc => pc.name == c) with
      | some pc => pc.cdef
      | none => p.sliders c
    let puFx := PU_CONTROLS.map (fun pc => Effect.v4l2Set dev pc.name pc.cdef)
    let xuFx : List Effect :=
      match p.xu_available, p.usb_dev with
      | true, some _ => [Effect.xuSet 3]
      | _, _ => []
    ({ p with sliders := sliders2, profile_var := 3,
              status := "All controls reset to defaults" },
     puFx ++ xuFx)

-- ---------- a mock device for round-trip scenarios ----------

/-- Mock state of the physical device: the PU control values and the stored
XU profile byte. -/
structure DeviceState where
  pu : String → Int
  xu : Nat

/-- Apply one recorded channel write to the mock device: a v4l2 set stores
the value under the control name, an XU set stores the transferred payload
byte (the value masked to 8 bits, as xu_set_cur_req sends it). -/
def applyEffect (st : DeviceState) : Effect → DeviceState
  | Effect.v4l2Set _ c v => { st with pu := fun c2 => if c2 == c then v else st.pu c2 }
  | Effect.xuSet v => { st with xu := v % 256 }

/-- A mock v4l2-ctl get environment over the mock device: exit status 0 and
output of the form name, colon, space, value. -/
def mockPuEnv (st : DeviceState) : String → String → ProcResult :=
  fun _ ctrl => ProcResult.finished 0 (ctrl ++ ": " ++ toString (st.pu ctrl))

-- ---------- theorems ----------

/-- An arbiter-call pattern where every primitive succeeds. -/
def opsOk : UsbOps :=
  { entryBound := true, detachOk := true, releaseOk := true, attachOk := true }

/-- Claim C1 as stated is false: with the interface bound at entry, a
successful detach, a normally returning body, and a reattach that raises
during cleanup, the swallowed cleanup failure leaves interface 0 unbound at
scope exit although it was bound at entry. -/
theorem c1_counterexample :
    ¬ ((xu_access
          { entryBound := true, detachOk := true, releaseOk := true,
            attachOk := false }
          (fun (u : Unit) => (Except.ok (0 : Nat), u)) ()).bound = true) := by
  decide

/-- Claim C1 amended: for every arbiter call and every body outcome, the
binding state at scope exit equals the state at entry whenever the reattach
call succeeds, and unconditionally when no detach was needed (unbound stays
unbound; a failed detach leaves it bound); and the only outcomes escaping
the scope are the wrapped body's own outcome or the initial detach failure —
no exception raised during the cleanup steps (interface release or driver
reattach) ever escapes the unwind. -/
theorem c1_arbiter_amended : ∀ (ops : UsbOps) (σ α : Type)
    (body : σ → Except XuExn α × σ) (s : σ),
    (ops.attachOk = true → (xu_access ops body s).bound = ops.entryBound) ∧
    (ops.entryBound = false → (xu_access ops body s).bound = false) ∧
    (ops.entryBound = true → ops.detachOk = false →
      (xu_access ops body s).bound = true) ∧
    ((xu_access ops body s).outcome = (body s).1 ∨
      (xu_access ops body s).outcome = Except.error XuExn.detachFailed) := by
  intro ops σ α body s
  rcases ops with ⟨eb, dk, rk, ak⟩
  cases eb <;> cases dk <;> cases rk <;> cases ak <;>
    simp [xu_access, xu_cleanup]

/-- Claim C1 witness: the amended theorem applied to an all-succeeding call
with a bound entry state. -/
theorem c1_witness :
    (xu_access opsOk (fun (u : Unit) => (Except.ok (0 : Nat), u)) ()).bound = true ∧
    ((xu_access opsOk (fun (u : Unit) => (Except.ok (0 : Nat), u)) ()).outcome =
        ((fun (u : Unit) => (Except.ok (0 : Nat), u)) ()).1 ∨
      (xu_access opsOk (fun (u : Unit) => (Except.ok (0 : Nat), u)) ()).outcome =
        Except.error XuExn.detachFailed) :=
  ⟨(c1_arbiter_amended opsOk Unit Nat (fun u => (Except.ok 0, u)) ()).1 rfl,
   (c1_arbiter_amended opsOk Unit Nat (fun u => (Except.ok 0, u)) ()).2.2.2⟩

/-- Claim C2: whenever an exception escapes the access scope or transfer,
xu_get_cur returns none and xu_set_cur returns false; on a successful
one-byte transfer xu_get_cur returns that byte (an empty result raises on
indexing inside the same try and again yields none); xu_set_cur returns true
on any successful transfer, and the payload it sends is exactly the one byte
value % 256. Both functions are total: no exception reaches the caller. -/
theorem c2_channel_error_handling : ∀ (dev : Dev) (v : Nat),
    (∀ e, xuGetOutcome dev = Except.error e → xu_get_cur dev = none) ∧
    (∀ b, xuGetOutcome dev = Except.ok [b] → xu_get_cur dev = some b) ∧
    (xuGetOutcome dev = Except.ok [] → xu_get_cur dev = none) ∧
    (∀ e, xuSetOutcome dev v = Except.error e → xu_set_cur dev v = false) ∧
    (∀ bs, xuSetOutcome dev v = Except.ok bs → xu_set_cur dev v = true) ∧
    (xu_set_cur_req v).data = CtrlData.outData [v % 256] ∧
    [v % 256].length = 1 ∧ v % 256 < 256 := by
  intro dev v
  refine ⟨?_, ?_, ?_, ?_, ?_, rfl, rfl, Nat.mod_lt v (by norm_num)⟩
  · intro e h; simp [xu_get_cur, h]
  · intro b h; simp [xu_get_cur, h]
  · intro h; simp [xu_get_cur, h]
  · intro e h; simp [xu_set_cur, h]
  · intro bs h; simp [xu_set_cur, h]

/-- A device whose transfer layer answers every IN transfer with byte 7. -/
def devOk7 : Dev :=
  { ops := opsOk,
    respond := fun req =>
      match req.data with
      | CtrlData.inLen _ => Except.ok [7]
      | CtrlData.outData _ => Except.ok [] }

/-- Claim C2 witness: on a device answering with byte 7, xu_get_cur
returns 7. -/
theorem c2_witness :
    xuGetOutcome devOk7 = Except.ok [7] ∧ xu_get_cur devOk7 = some 7 :=
  ⟨rfl, (c2_channel_error_handling devOk7 0).2.1 7 rfl⟩

/-- Claim C3: the wire fields of every GET_CUR and SET_CUR transfer the two
channel functions issue — request types 0xA1 and 0x21, request codes 0x81
and 0x01, shared wValue equal to the selector shifted left 8 (0x0100),
shared wIndex equal to the unit id shifted left 8 or-ed with interface 0
(0x0400), IN length 1, a one-byte OUT payload, and timeout 2000. -/
theorem c3_wire_constants : ∀ v : Nat,
    xu_get_cur_req.bmRequestType = 0xA1 ∧
    xu_get_cur_req.bRequest = 0x81 ∧
    xu_get_cur_req.wValue = XU_SELECTOR <<< 8 ∧
    xu_get_cur_req.wValue = 0x0100 ∧
    xu_get_cur_req.wIndex = (XU_UNIT_ID <<< 8) ||| 0x00 ∧
    xu_get_cur_req.wIndex = 0x0400 ∧
    xu_get_cur_req.data = CtrlData.inLen 1 ∧
    xu_get_cur_req.timeout = 2000 ∧
    (xu_set_cur_req v).bmRequestType = 0x21 ∧
    (xu_set_cur_req v).bRequest = 0x01 ∧
    (xu_set_cur_req v).wValue = xu_get_cur_req.wValue ∧
    (xu_set_cur_req v).wIndex = xu_get_cur_req.wIndex ∧
    (xu_set_cur_req v).data = CtrlData.outData [v % 256] ∧
    [v % 256].length = 1 ∧
    (xu_set_cur_req v).timeout = 2000 := by
  intro v
  exact ⟨rfl, rfl, rfl, by decide, rfl, by decide, rfl, rfl, rfl, rfl, rfl,
    rfl, rfl, rfl, rfl⟩

/-- Claim C6: the standard-channel get returns an integer exactly when the
external program exits with status 0 and the colon-number pattern matches
its output, in which case it is that signed integer; non-zero exit, timeout
and missing executable all yield none; on the concrete output line for
brightness 12 it extracts 12, and non-matching text yields none. The
function is total, so no failure propagates. -/
theorem c6_v4l2_get : ∀ (env : String → String → ProcResult)
    (device ctrl : String),
    (∀ n : Int, v4l2_get_ctrl env device ctrl = some n ↔
      ∃ out, env device ctrl = ProcResult.finished 0 out ∧
        reSearchColonNum out.data = some n) ∧
    (env device ctrl = ProcResult.timeoutExpired →
      v4l2_get_ctrl env device ctrl = none) ∧
    (env device ctrl = ProcResult.fileNotFound →
      v4l2_get_ctrl env device ctrl = none) ∧
    (∀ rc out, env device ctrl = ProcResult.finished rc out → rc ≠ 0 →
      v4l2_get_ctrl env device ctrl = none) ∧
    reSearchColonNum ("brightness: 12").data = some 12 ∧
    reSearchColonNum ("brightness: -5").data = some (-5) ∧
    reSearchColonNum ("no numeric output").data = none := by
  intro env device ctrl
  refine ⟨?_, ?_, ?_, ?_, by decide, by decide, by decide⟩
  · intro n
    constructor
    · intro h
      cases henv : env device ctrl with
      | finished rc out =>
        simp only [v4l2_get_ctrl, henv] at h
        by_cases hrc : rc = 0
        · subst hrc
          simp only [if_pos rfl] at h
          exact ⟨out, rfl, h⟩
        · simp [hrc] at h
      | timeoutExpired => simp [v4l2_get_ctrl, henv] at h
      | fileNotFound => simp [v4l2_get_ctrl, henv] at h
    · rintro ⟨out, hout, hsearch⟩
      simp [v4l2_get_ctrl, hout, hsearch]
  · intro h; simp [v4l2_get_ctrl, h]
  · intro h; simp [v4l2_get_ctrl, h]
  · intro rc out h hrc; simp [v4l2_get_ctrl, h, hrc]

/-- An environment in which every query prints the brightness line. -/
def envBright12 : String → String → ProcResult :=
  fun _ _ => ProcResult.finished 0 "brightness: 12"

/-- Claim C6 witness: the theorem applied to that environment extracts 12. -/
theorem c6_witness :
    envBright12 "/dev/video0" "brightness" =
      ProcResult.finished 0 "brightness: 12" ∧
    v4l2_get_ctrl envBright12 "/dev/video0" "brightness" = some 12 :=
  ⟨rfl, ((c6_v4l2_get envBright12 "/dev/video0" "brightness").1 12).mpr
    ⟨"brightness: 12", rfl, by decide⟩⟩

/-- Discovery returns exactly the passing devices, each labelled. -/
theorem find_esp32p4_filter_map (env : String → ProcResult) :
    ∀ paths : List String,
    find_esp32p4_devices env paths =
      (paths.filter (fun d => devPass (env d))).map
        (fun d => (d, devLabel d (env d)))
  | [] => rfl
  | d :: rest => by
    cases henv : env d with
    | finished rc out =>
      by_cases h : (rc == 0 && hasSubstr espMarker out.data) = true
      · simp [find_esp32p4_devices, henv, devPass, devLabel, h,
          find_esp32p4_filter_map env rest]
      · simp [find_esp32p4_devices, henv, devPass, devLabel, h,
          find_esp32p4_filter_map env rest]
    | timeoutExpired =>
      simp [find_esp32p4_devices, henv, devPass,
        find_esp32p4_filter_map env rest]
    | fileNotFound =>
      simp [find_esp32p4_devices, henv, devPass,
        find_esp32p4_filter_map env rest]

/-- Claim C7: discovery keeps exactly the devices whose info query finished
with exit status 0 and whose output holds the product marker; a timeout or
missing executable for one device skips only that device; when nothing
passes the result is the empty list; and every entry's label is the
extracted card name, which falls back to the raw device path when the card
pattern does not match. -/
theorem c7_discovery : ∀ (env : String → ProcResult) (paths : List String),
    find_esp32p4_devices env paths =
      (paths.filter (fun d => devPass (env d))).map
        (fun d => (d, devLabel d (env d))) ∧
    (∀ d c, (d, c) ∈ find_esp32p4_devices env paths →
      ∃ out, env d = ProcResult.finished 0 out ∧
        hasSubstr espMarker out.data = true ∧ c = devLabel d (env d)) ∧
    ((∀ d ∈ paths, devPass (env d) = false) →
      find_esp32p4_devices env paths = []) ∧
    (∀ d rest, env d = ProcResult.timeoutExpired →
      find_esp32p4_devices env (d :: rest) = find_esp32p4_devices env rest) ∧
    (∀ d rest, env d = ProcResult.fileNotFound →
      find_esp32p4_devices env (d :: rest) = find_esp32p4_devices env rest) ∧
    (∀ d out g, reSearchCard out.data = some g →
      cardOf d out = String.mk (stripChars g)) ∧
    (∀ d out, reSearchCard out.data = none → cardOf d out = d) := by
  intro env paths
  refine ⟨find_esp32p4_filter_map env paths, ?_, ?_, ?_, ?_, ?_, ?_⟩
  · intro d c hmem
    rw [find_esp32p4_filter_map env paths] at hmem
    obtain ⟨d1, hd1, heq⟩ := List.mem_map.mp hmem
    obtain ⟨hmem1, hpass⟩ := List.mem_filter.mp hd1
    have hd : d1 = d := congrArg Prod.fst heq
    have hc : devLabel d1 (env d1) = c := congrArg Prod.snd heq
    rw [← hd]
    cases hr : env d1 with
    | finished rc out =>
      rw [hr] at hpass
      simp only [devPass] at hpass
      obtain ⟨hrc, hesp⟩ := Bool.and_eq_true_iff.mp hpass
      have hrc0 : rc = 0 := by simpa using hrc
      subst hrc0
      exact ⟨out, rfl, hesp, hr ▸ hc.symm⟩
    | timeoutExpired =>
      rw [hr] at hpass
      simp [devPass] at hpass
    | fileNotFound =>
      rw [hr] at hpass
      simp [devPass] at hpass
  · intro hall
    rw [find_esp32p4_filter_map env paths]
    have hnil : paths.filter (fun d => devPass (env d)) = [] := by
      rw [List.filter_eq_nil_iff]
      intro a ha
      simp [hall a ha]
    rw [hnil]; rfl
  · intro d rest h; simp [find_esp32p4_devices, h]
  · intro d rest h; simp [find_esp32p4_devices, h]
  · intro d out g h; simp [cardOf, h]
  · intro d out h; simp [cardOf, h]

/-- An environment with one matching device, one non-matching device and one
timing-out device. -/
def envDisc : String → ProcResult :=
  fun d =>
    if d = "/dev/video0" then
      ProcResult.finished 0 "Card type : ESP32P4-EYE\n"
    else if d = "/dev/video1" then
      ProcResult.finished 0 "Card type : OtherCam\n"
    else
      ProcResult.timeoutExpired

/-- Claim C7 witness: the theorem applied to the mixed environment — only
the matching device survives, labelled by its extracted card name. -/
theorem c7_witness :
    (∀ d ∈ (["/dev/video1", "/dev/video2"] : List String),
      devPass (envDisc d) = false) ∧
    find_esp32p4_devices envDisc ["/dev/video1", "/dev/video2"] = [] :=
  ⟨by decide,
   (c7_discovery envDisc ["/dev/video1", "/dev/video2"]).2.2.1 (by decide)⟩

/-- Claim C8: under the mock transfer layer that stores the last written
byte and returns it on read, setting value v and then reading gives back
v % 256 — in particular v itself for every byte value v < 256 — for either
entry binding state, with all arbiter primitives succeeding as a mock
transport never raises. -/
theorem c8_roundtrip : ∀ (entry : Bool) (s v : Nat),
    (xu_get_cur_st
        { entryBound := entry, detachOk := true, releaseOk := true,
          attachOk := true } mockRespond
        (xu_set_cur_st
          { entryBound := entry, detachOk := true, releaseOk := true,
            attachOk := true } mockRespond s v).2).1 = some (v % 256) ∧
    (v < 256 →
      (xu_get_cur_st
        { entryBound := entry, detachOk := true, releaseOk := true,
          attachOk := true } mockRespond
        (xu_set_cur_st
          { entryBound := entry, detachOk := true, releaseOk := true,
            attachOk := true } mockRespond s v).2).1 = some v) := by
  intro entry s v
  have h : (xu_get_cur_st
      { entryBound := entry, detachOk := true, releaseOk := true,
        attachOk := true } mockRespond
      (xu_set_cur_st
        { entryBound := entry, detachOk := true, releaseOk := true,
          attachOk := true } mockRespond s v).2).1 = some (v % 256) := by
    cases entry <;> rfl
  exact ⟨h, fun hv => by rw [h, Nat.mod_eq_of_lt hv]⟩

/-- Claim C8 witness: the round-trip theorem at stored byte 0 and value 3 —
set 3 then get returns 3. -/
theorem c8_witness :
    3 < 256 ∧
    (xu_get_cur_st opsOk mockRespond
      (xu_set_cur_st opsOk mockRespond 0 3).2).1 = some 3 :=
  ⟨by decide, (c8_roundtrip true 0 3).2 (by decide)⟩

/-- Claim C4: on every device (re)selection the tracker attempts the vendor
read; a returned value makes the channel usable and becomes the current
preset; otherwise the channel is unusable with the cause-specific
diagnostic — read/permission failure, transport library absent, or USB
device not found — and the three diagnostics are pairwise distinct. -/
theorem c4_availability_tracker : ∀ (env : String → String → ProcResult)
    (p : Panel) (d : String), p.devicePath = some d →
    (∀ dv v, p.usb_dev = some dv → xu_get_cur dv = some v →
      (on_device_change env p).xu_available = true ∧
      (on_device_change env p).profile_var = v) ∧
    (∀ dv, p.usb_dev = some dv → xu_get_cur dv = none →
      (on_device_change env p).xu_available = false ∧
      (on_device_change env p).xu_status_msg = msgReadFailed) ∧
    (p.usb_dev = none → p.has_pyusb = false →
      (on_device_change env p).xu_available = false ∧
      (on_device_change env p).xu_status_msg = msgNoPyusb) ∧
    (p.usb_dev = none → p.has_pyusb = true →
      (on_device_change env p).xu_available = false ∧
      (on_device_change env p).xu_status_msg = msgNotFound) ∧
    (msgReadFailed ≠ msgNoPyusb ∧ msgReadFailed ≠ msgNotFound ∧
      msgNoPyusb ≠ msgNotFound) := by
  intro env p d hd
  refine ⟨?_, ?_, ?_, ?_, by decide, by decide, by decide⟩
  · intro dv v hdv hget
    constructor <;>
      simp [on_device_change, hd, xu_probe_update, hdv, hget]
  · intro dv hdv hget
    constructor <;>
      simp [on_device_change, hd, xu_probe_update, xu_unavailable, hdv, hget]
  · intro hdv hpy
    constructor <;>
      simp [on_device_change, hd, xu_probe_update, xu_unavailable, hdv, hpy]
  · intro hdv hpy
    constructor <;>
      simp [on_device_change, hd, xu_probe_update, xu_unavailable, hdv, hpy]

/-- A device whose transfer layer answers every IN transfer with byte 2, as
in the spec scenario for the tracker. -/
def devOk2 : Dev :=
  { ops := opsOk,
    respond := fun req =>
      match req.data with
      | CtrlData.inLen _ => Except.ok [2]
      | CtrlData.outData _ => Except.ok [] }

/-- A panel whose raw handle answers the vendor read with byte 2. -/
def panel2 : Panel :=
  { has_pyusb := true,
    usb_dev := some devOk2,
    devicePath := some "/dev/video0",
    xu_available := false,
    profile_var := 3,
    sliders := fun _ => 0,
    xu_status_msg := "",
    status := "Ready" }

/-- Claim C4 witness: the tracker theorem applied to the panel whose
transport returns byte 2 — the channel becomes usable with current 2. -/
theorem c4_witness :
    panel2.devicePath = some "/dev/video0" ∧
    (on_device_change envBright12 panel2).xu_available = true ∧
    (on_device_change envBright12 panel2).profile_var = 2 := by
  refine ⟨rfl, ?_⟩
  have h := (c4_availability_tracker envBright12 panel2 "/dev/video0" rfl).1
  exact h devOk2 2 rfl rfl

/-- Claim C5: neither handler ever performs a vendor write while the
availability flag is down or while no raw USB handle is held — both the
profile-change handler and the reset operation consult that state before
any xu_set_cur invocation. -/
theorem c5_write_gating : ∀ (p : Panel) (v : Nat),
    p.xu_available = false ∨ p.usb_dev = none →
    Effect.xuSet v ∉ (on_profile_change p).2 ∧
    Effect.xuSet v ∉ (reset_all p).2 := by
  intro p v hp
  constructor
  · cases hdev : p.usb_dev with
    | none => simp [on_profile_change, hdev]
    | some dv =>
      rcases hp with h | h
      · simp [on_profile_change, hdev, h]
      · rw [hdev] at h; cases h
  · cases hpath : p.devicePath with
    | none => simp [reset_all, hpath]
    | some dev =>
      cases hdev : p.usb_dev with
      | none =>
        cases hav : p.xu_available <;>
          simp [reset_all, hpath, hdev, hav, PU_CONTROLS]
      | some dv =>
        rcases hp with h | h
        · simp [reset_all, hpath, hdev, h, PU_CONTROLS]
        · rw [hdev] at h; cases h

/-- A panel holding a raw handle but with the availability flag down. -/
def panelDown : Panel :=
  { panel2 with xu_available := false, status := "Ready" }

/-- Claim C5 witness: the gating theorem applied to the unavailable panel —
no vendor write appears in either handler's effect list. -/
theorem c5_witness :
    (panelDown.xu_available = false ∨ panelDown.usb_dev = none) ∧
    Effect.xuSet 3 ∉ (on_profile_change panelDown).2 ∧
    Effect.xuSet 3 ∉ (reset_all panelDown).2 :=
  ⟨Or.inl rfl, c5_write_gating panelDown 3 (Or.inl rfl)⟩

/-- The channel writes a full reset performs, in source order. -/
def defaultsTrace (d : String) : List Effect :=
  [Effect.v4l2Set d "brightness" 0, Effect.v4l2Set d "contrast" 128,
   Effect.v4l2Set d "hue" 0, Effect.v4l2Set d "saturation" 128,
   Effect.xuSet 3]

/-- Claim C9: with a selected device, the availability flag up and a raw
handle held, reset writes brightness 0, contrast 128, hue 0, saturation 128
over the standard channel and profile 3 over the vendor channel, and sets
the profile radio to 3; applying those writes to any mock device leaves it
holding exactly the defaults, and a subsequent get on each channel (the
standard get through its real parser over the mock output, the vendor get
through the mock transfer layer) returns them. -/
theorem c9_reset_defaults : ∀ (p : Panel) (d : String) (dv : Dev)
    (st : DeviceState),
    p.devicePath = some d → p.xu_available = true → p.usb_dev = some dv →
    (reset_all p).2 = defaultsTrace d ∧
    (reset_all p).1.profile_var = 3 ∧
    ((reset_all p).2.foldl applyEffect st).pu "brightness" = 0 ∧
    ((reset_all p).2.foldl applyEffect st).pu "contrast" = 128 ∧
    ((reset_all p).2.foldl applyEffect st).pu "hue" = 0 ∧
    ((reset_all p).2.foldl applyEffect st).pu "saturation" = 128 ∧
    ((reset_all p).2.foldl applyEffect st).xu = 3 ∧
    v4l2_get_ctrl (mockPuEnv ((reset_all p).2.foldl applyEffect st)) d
      "brightness" = some 0 ∧
    v4l2_get_ctrl (mockPuEnv ((reset_all p).2.foldl applyEffect st)) d
      "contrast" = some 128 ∧
    v4l2_get_ctrl (mockPuEnv ((reset_all p).2.foldl applyEffect st)) d
      "hue" = some 0 ∧
    v4l2_get_ctrl (mockPuEnv ((reset_all p).2.foldl applyEffect st)) d
      "saturation" = some 128 ∧
    (xu_get_cur_st opsOk mockRespond
      ((reset_all p).2.foldl applyEffect st).xu).1 = some 3 := by
  intro p d dv st hd hav hdev
  have hfx : (reset_all p).2 = defaultsTrace d := by
    simp [reset_all, defaultsTrace, hd, hav, hdev, PU_CONTROLS]
  have hpv : (reset_all p).1.profile_var = 3 := by
    simp [reset_all, hd]
  rw [hfx]
  have hb : ((defaultsTrace d).foldl applyEffect st).pu "brightness" = 0 := by
    simp [defaultsTrace, applyEffect]
  have hco : ((defaultsTrace d).foldl applyEffect st).pu "contrast" = 128 := by
    simp [defaultsTrace, applyEffect]
  have hh : ((defaultsTrace d).foldl applyEffect st).pu "hue" = 0 := by
    simp [defaultsTrace, applyEffect]
  have hs : ((defaultsTrace d).foldl applyEffect st).pu "saturation" = 128 := by
    simp [defaultsTrace, applyEffect]
  have hx : ((defaultsTrace d).foldl applyEffect st).xu = 3 := by
    simp [defaultsTrace, applyEffect]
  refine ⟨rfl, hpv, hb, hco, hh, hs, hx, ?_, ?_, ?_, ?_, ?_⟩
  · simp [v4l2_get_ctrl, mockPuEnv, hb]
    decide
  · simp [v4l2_get_ctrl, mockPuEnv, hco]
    decide
  · simp [v4l2_get_ctrl, mockPuEnv, hh]
    decide
  · simp [v4l2_get_ctrl, mockPuEnv, hs]
    decide
  · rw [hx]
    decide

/-- The byte-2 panel with the availability flag up, for a full reset. -/
def panelUp : Panel :=
  { panel2 with xu_available := true }

/-- A mock device holding non-default values everywhere. -/
def devSt0 : DeviceState :=
  { pu := fun _ => 5, xu := 0 }

/-- Claim C9 witness: the reset theorem applied to a concrete available
panel and mock device — the vendor byte ends at 3 and the standard get
reads back brightness 0. -/
theorem c9_witness :
    panelUp.xu_available = true ∧
    ((reset_all panelUp).2.foldl applyEffect devSt0).xu = 3 ∧
    v4l2_get_ctrl (mockPuEnv ((reset_all panelUp).2.foldl applyEffect devSt0))
      "/dev/video0" "brightness" = some 0 :=
  ⟨rfl,
   (c9_reset_defaults panelUp "/dev/video0" devOk2 devSt0 rfl rfl rfl).2.2.2.2.2.2.1,
   (c9_reset_defaults panelUp "/dev/video0" devOk2 devSt0 rfl rfl rfl).2.2.2.2.2.2.2.1⟩

/-- Claim C10: with a device selected but the vendor channel unusable (flag
down or no raw handle), reset still performs the four standard-channel
default writes, performs no vendor write, still sets the profile radio to 3,
and reports the very same status line as a full reset — the status is that
line for every panel with a selected device, so no partial-completion
indication exists. -/
theorem c10_partial_reset : ∀ (p : Panel) (d : String),
    p.devicePath = some d →
    p.xu_available = false ∨ p.usb_dev = none →
    (reset_all p).2 =
      [Effect.v4l2Set d "brightness" 0, Effect.v4l2Set d "contrast" 128,
       Effect.v4l2Set d "hue" 0, Effect.v4l2Set d "saturation" 128] ∧
    (∀ v, Effect.xuSet v ∉ (reset_all p).2) ∧
    (reset_all p).1.profile_var = 3 ∧
    (reset_all p).1.status = "All controls reset to defaults" ∧
    (∀ (q : Panel) (e : String), q.devicePath = some e →
      (reset_all q).1.status = "All controls reset to defaults") := by
  intro p d hd hp
  have hfx : (reset_all p).2 =
      [Effect.v4l2Set d "brightness" 0, Effect.v4l2Set d "contrast" 128,
       Effect.v4l2Set d "hue" 0, Effect.v4l2Set d "saturation" 128] := by
    rcases hp with h | h
    · simp [reset_all, hd, h, PU_CONTROLS]
    · cases hav : p.xu_available <;> simp [reset_all, hd, h, hav, PU_CONTROLS]
  refine ⟨hfx, ?_, ?_, ?_, ?_⟩
  · intro v; rw [hfx]; simp
  · simp [reset_all, hd]
  · simp [reset_all, hd]
  · intro q e he; simp [reset_all, he]

/-- Claim C10 witness: the partial-reset theorem applied to the unavailable
panel. -/
theorem c10_witness :
    panelDown.xu_available = false ∧
    (reset_all panelDown).1.profile_var = 3 ∧
    (reset_all panelDown).1.status = "All controls reset to defaults" ∧
    Effect.xuSet 5 ∉ (reset_all panelDown).2 :=
  ⟨rfl,
   (c10_partial_reset panelDown "/dev/video0" rfl (Or.inl rfl)).2.2.1,
   (c10_partial_reset panelDown "/dev/video0" rfl (Or.inl rfl)).2.2.2.1,
   (c10_partial_reset panelDown "/dev/video0" rfl (Or.inl rfl)).2.1 5⟩
